import Mathlib

/-!
Verification of the `RiakObject` core (riak/riak_object.py).

The Python class is embedded shallowly:

* Python values that may be stored in a record (`self._data`) are `Val`:
  textual values (`basestring`) carry a `String`, every other Python object
  is abstracted as `Val.obj n`.  Python truthiness of the values this model
  can express is `Val.truthy` (the empty string is falsy, other objects
  truthy).
* the encoded wire form (a Python 2 byte string) is `Bytes := String`; the
  default `value.encode()` fallback of `_serialize` is modelled as the
  identity `strEncode`.
* the bucket collaborator (not part of the given core) is a record of its
  contract: a name plus the codec registry `get_encoder` / `get_decoder`.
* attribute mutation is explicit state passing: methods of the class become
  functions `RObject → ... → RObject` (or `Except Err ...` when the Python
  method can raise).
* Python reference aliasing, which `get_sibling` relies on, is made
  explicit with a heap: `Heap` stores objects and sibling lists at numeric
  ids, an object's `siblings` attribute is the id of a shared list, and the
  transport collaborator (`self.client`) is a `Transport` record whose
  calls are journalled in `Heap.trace`.
-/

namespace Riak

/-- Decoded Python values: `str s` is a textual value (`basestring`),
`obj n` abstracts any non-textual Python object. -/
inductive Val where
  | str (s : String)
  | obj (n : Nat)
deriving DecidableEq

/-- Python truthiness of a decoded value: the empty string is falsy;
non-textual objects are modelled as truthy. -/
def Val.truthy : Val → Bool
  | .str s => !s.isEmpty
  | .obj _ => true

/-- Encoded wire data (a Python 2 byte string). -/
abbrev Bytes := String

/-- `value.encode()` on an ascii `str`: modelled as the identity on the
byte string. -/
def strEncode (s : String) : Bytes := s

/-- Secondary-index values: "string or integer". -/
inductive IVal where
  | str (s : String)
  | int (z : Int)
deriving DecidableEq

/-- Python truthiness of an index value: `""` and `0` are falsy. -/
def IVal.truthy : IVal → Bool
  | .str s => !s.isEmpty
  | .int z => decide (z ≠ 0)

/-- Truthiness of an optional string (`None` and `""` are falsy). -/
def truthyOptStr : Option String → Bool
  | none => false
  | some s => !s.isEmpty

/-- Truthiness of an optional decoded value (`None` is falsy). -/
def truthyOptVal : Option Val → Bool
  | none => false
  | some v => v.truthy

/-- Truthiness of an optional index value (`None` is falsy). -/
def truthyOptIVal : Option IVal → Bool
  | none => false
  | some v => v.truthy

/-- The bucket collaborator, reduced to the contract this core consumes:
a name and the codec registry keyed by content type. -/
structure Bucket where
  name : String
  get_encoder : String → Option (Val → Bytes)
  get_decoder : String → Option (Bytes → Val)

/-- An entry of a sibling list: either an unresolved version tag or a
(heap reference to a) resolved record. -/
inductive SibEntry where
  | vtag (t : String)
  | ref (oid : Nat)
deriving DecidableEq

/-- The attribute set a `RiakObject` instance carries.  `siblings` is the
heap id of the shared sibling list; `headers` models the attribute that
only `clear()` ever writes (absent until then). -/
structure RObject where
  client : Nat
  bucket : Bucket
  key : Option String
  _data : Option Val
  _encoded_data : Option Bytes
  vclock : Option String
  charset : Option String
  content_type : String
  content_encoding : Option String
  usermeta : List (String × String)
  indexes : List (String × IVal)
  links : List (String × Option String × Option String)
  siblings : Nat
  «exists» : Bool
  headers : Option (List String)

/-- The exceptions the embedded methods can raise.  Each constructor names
one `raise` site of the source (`invalidRef` is a model artifact for a
dangling heap id, unreachable from Python). -/
inductive Err where
  | unresolvedConflictStore
  | unrecognizedPopulateResult
  | missingEncoder
  | missingDecoder
  | ambiguousIndexRemoval
  | keyError
  | indexError
  | valueErrorEmptyKey
  | invalidRef
deriving DecidableEq

/-- `RiakObject._serialize`: use the encoder registered for the content
type; otherwise fall back to `value.encode()` for textual values; raise
`TypeError` for anything else. -/
def _serialize (o : RObject) (value : Val) : Except Err Bytes :=
  match o.bucket.get_encoder o.content_type with
  | some encoder => .ok (encoder value)
  | none =>
    match value with
    | .str s => .ok (strEncode s)
    | .obj _ => .error .missingEncoder

/-- `RiakObject._deserialize`: use the decoder registered for the content
type; raise `TypeError` when none is registered. -/
def _deserialize (o : RObject) (value : Bytes) : Except Err Val :=
  match o.bucket.get_decoder o.content_type with
  | some decoder => .ok (decoder value)
  | none => .error .missingDecoder

/-- `RiakObject._get_data` (the `data` property getter): when only the
encoded side is present, decode it, cache the result and drop the encoded
side; otherwise return `self._data` unchanged.  Returns the value produced
together with the updated object. -/
def _get_data (o : RObject) : Except Err (Option Val × RObject) :=
  match o._encoded_data, o._data with
  | some b, none =>
    match _deserialize o b with
    | .ok v => .ok (some v, { o with _data := some v, _encoded_data := none })
    | .error e => .error e
  | _, _ => .ok (o._data, o)

/-- `RiakObject._set_data` (the `data` property setter): store the value
and invalidate the encoded side. -/
def _set_data (o : RObject) (value : Option Val) : RObject :=
  { o with _encoded_data := none, _data := value }

/-- `RiakObject._get_encoded_data` (the `encoded_data` property getter):
when only the decoded side is present, encode it, cache the result and
drop the decoded side; otherwise return `self._encoded_data` unchanged. -/
def _get_encoded_data (o : RObject) : Except Err (Option Bytes × RObject) :=
  match o._data, o._encoded_data with
  | some v, none =>
    match _serialize o v with
    | .ok b => .ok (some b, { o with _encoded_data := some b, _data := none })
    | .error e => .error e
  | _, _ => .ok (o._encoded_data, o)

/-- `RiakObject._set_encoded_data` (the `encoded_data` property setter):
store the bytes and invalidate the decoded side. -/
def _set_encoded_data (o : RObject) (value : Option Bytes) : RObject :=
  { o with _data := none, _encoded_data := value }

/-- The mutual-exclusivity invariant of the value cell: at most one of the
decoded and the encoded representation is present. -/
def cellInv (o : RObject) : Prop :=
  o._data = none ∨ o._encoded_data = none

/-- `RiakObject.__hash__` hashes the tuple `(self.key, self.bucket,
self.vclock)`; the built-in `hash` is modelled injectively by the triple
itself. -/
def objHash (o : RObject) : Option String × Bucket × Option String :=
  (o.key, o.bucket, o.vclock)

/-- The right-hand side of an equality comparison: another record, or any
non-record Python value (abstracted by a number). -/
inductive PyVal where
  | record (o : RObject)
  | nonRecord (n : Nat)

/-- `RiakObject.__eq__`: records compare by hash (hence, in this model, by
the `(key, bucket, vclock)` triple); everything else compares unequal. -/
def objEq (o : RObject) (other : PyVal) : Prop :=
  match other with
  | .record b => objHash o = objHash b
  | .nonRecord _ => False

/-- `RiakObject.__ne__`: records compare by hash disequality; against any
non-record the result is `True`. -/
def objNe (o : RObject) (other : PyVal) : Prop :=
  match other with
  | .record b => objHash o ≠ objHash b
  | .nonRecord _ => True

/-- `RiakObject.remove_index`: dispatches on the *truthiness* of the two
optional arguments, exactly like the Python `if not field and not value`
chains; `indexes.remove` on an absent pair raises `KeyError`. -/
def remove_index (o : RObject) (field : Option String) (value : Option IVal) :
    Except Err RObject :=
  if !truthyOptStr field && !truthyOptIVal value then
    .ok { o with indexes := [] }
  else if truthyOptStr field && !truthyOptIVal value then
    .ok { o with indexes := o.indexes.filter (fun x => !decide (some x.1 = field)) }
  else if truthyOptStr field && truthyOptIVal value then
    let f := field.getD ""
    let v := value.getD (.int 0)
    if (f, v) ∈ o.indexes then
      .ok { o with indexes := o.indexes.filter (fun x => !decide (x = (f, v))) }
    else
      .error .keyError
  else
    .error .ambiguousIndexRemoval

/-- One journalled call to the transport collaborator (`self.client`).
`get` records the requesting record's client, bucket name, key, and the
version tag of the fetch. -/
inductive Call where
  | putNew (bucketName : String)
  | put (bucketName : String) (key : Option String)
  | get (client : Nat) (bucketName : String) (key : Option String) (vtag : Option String)
deriving DecidableEq

/-- The explicit heap: records and sibling lists live at numeric ids
(`nextObj` / `nextList` are the next fresh ids), and `trace` journals
every transport call in order. -/
structure Heap where
  objs : Nat → Option RObject
  nextObj : Nat
  lists : Nat → Option (List SibEntry)
  nextList : Nat
  trace : List Call

/-- Point update of a heap store. -/
def upd {α : Type} (f : Nat → Option α) (i : Nat) (a : α) : Nat → Option α :=
  fun j => if j = i then some a else f j

theorem upd_self {α : Type} (f : Nat → Option α) (i : Nat) (a : α) :
    upd f i a i = some a := by
  simp [upd]

theorem upd_other {α : Type} (f : Nat → Option α) (i j : Nat) (a : α) (h : j ≠ i) :
    upd f i a j = f j := by
  simp [upd, h]

/-- Allocate a fresh sibling list, returning its id. -/
def Heap.allocList (h : Heap) (l : List SibEntry) : Heap × Nat :=
  ({ h with lists := upd h.lists h.nextList l, nextList := h.nextList + 1 },
   h.nextList)

/-- Allocate a fresh record, returning its id. -/
def Heap.allocObj (h : Heap) (o : RObject) : Heap × Nat :=
  ({ h with objs := upd h.objs h.nextObj o, nextObj := h.nextObj + 1 },
   h.nextObj)

/-- Overwrite the record stored at id `i`. -/
def Heap.setObj (h : Heap) (i : Nat) (o : RObject) : Heap :=
  { h with objs := upd h.objs i o }

/-- Overwrite the sibling list stored at id `i` (an in-place list
mutation: every record whose `siblings` field is `i` sees the change). -/
def Heap.setList (h : Heap) (i : Nat) (l : List SibEntry) : Heap :=
  { h with lists := upd h.lists i l }

/-- Journal a transport call. -/
def Heap.addCall (h : Heap) (c : Call) : Heap :=
  { h with trace := h.trace ++ [c] }

/-- A transport result: a (heap reference to a) populated record, `None`,
the literal `('', [])` tuple, or a list of version tags. -/
inductive TResult where
  | obj (oid : Nat)
  | noneR
  | emptyPair
  | vtags (ts : List String)
deriving DecidableEq

/-- Python truthiness of a transport result: `None` and the empty list are
falsy; records and the (non-empty) tuple `('', [])` are truthy. -/
def TResult.truthy : TResult → Bool
  | .noneR => false
  | .obj _ => true
  | .emptyPair => true
  | .vtags ts => !ts.isEmpty

/-- The transport collaborator (`self.client`): each operation receives
the calling record.  The opaque quorum knobs (w/dw/pw/r/pr,
return_body, if_none_match) are passed through uninterpreted and are
dropped from the model. -/
structure Transport where
  put_new : RObject → TResult
  put : RObject → TResult
  get : RObject → Option String → TResult

/-- The attribute values `RiakObject.__init__` assigns, with `sid` the id
of the freshly allocated empty sibling list. -/
def initObj (client : Nat) (bucket : Bucket) (key : Option String) (sid : Nat) :
    RObject :=
  { client := client
    bucket := bucket
    key := key
    _data := none
    _encoded_data := none
    vclock := none
    charset := none
    content_type := "application/json"
    content_encoding := none
    usermeta := []
    indexes := []
    links := []
    siblings := sid
    «exists» := false
    headers := none }

/-- `RiakObject.__init__`: rejects an explicitly supplied empty key
(`ValueError`), then allocates the record with its default attributes.
(Keys are modelled as plain ascii strings, so the unicode branch of the
constructor does not arise.) -/
def init (client : Nat) (bucket : Bucket) (key : Option String) (h : Heap) :
    Except Err (Heap × Nat) :=
  if key = some "" then
    .error .valueErrorEmptyKey
  else
    let hs := h.allocList []
    .ok (hs.1.allocObj (initObj client bucket key hs.2))

/-- `RiakObject.clear`: sets `headers`, `links`, `data` (through the
property setter, clearing both cell sides), `exists`, and rebinds
`siblings` to a freshly allocated empty list.  Total: it cannot fail (a
dangling id, impossible from Python, leaves the heap unchanged). -/
def clear (h : Heap) (i : Nat) : Heap :=
  match h.objs i with
  | none => h
  | some o =>
    let hs := h.allocList []
    hs.1.setObj i
      { o with headers := some [], links := [], _data := none,
               _encoded_data := none, «exists» := false, siblings := hs.2 }

/-- `RiakObject._populate`: `None` and the record itself are no-ops; a
(different) record wholesale-replaces this record's attribute dictionary
(after a `clear()` call whose effects the copy then overwrites); every
other result shape raises `RiakError`. -/
def populate (h : Heap) (i : Nat) (result : TResult) : Except Err Heap :=
  match result with
  | .noneR => .ok h
  | .obj rid =>
    if rid = i then
      .ok h
    else
      let h1 := clear h i
      match h1.objs rid with
      | some ro => .ok (h1.setObj i ro)
      | none => .error .invalidRef
  | _ => .error .unrecognizedPopulateResult

/-- Truthiness of `self.siblings` (a list reference): true iff the shared
list is non-empty. -/
def truthySiblings (h : Heap) (o : RObject) : Bool :=
  !((h.lists o.siblings).getD []).isEmpty

/-- `RiakObject.store`: the conflict guard tests the *truthiness* of
`self.siblings`, `self._data`, `self._encoded_data` and `self.vclock`;
then the keyless path calls `put_new` and always populates, while the
keyed path calls `put` and skips populating only for `None` and the
literal `('', [])` result. -/
def store (tr : Transport) (h : Heap) (i : Nat) : Except Err Heap :=
  match h.objs i with
  | none => .error .invalidRef
  | some o =>
    if truthySiblings h o && !truthyOptVal o._data &&
        !truthyOptStr o._encoded_data && !truthyOptStr o.vclock then
      .error .unresolvedConflictStore
    else if o.key = none then
      let result := tr.put_new o
      let h1 := h.addCall (.putNew o.bucket.name)
      populate h1 i result
    else
      let result := tr.put o
      let h1 := h.addCall (.put o.bucket.name o.key)
      match result with
      | .noneR => .ok h1
      | .emptyPair => .ok h1
      | _ => populate h1 i result

/-- `RiakObject.reload`: fetches through the transport; a truthy result
other than the `('', [])` tuple is applied via `_populate`, everything
else (`None`, the empty list, the tuple) leads to `clear()`. -/
def reload (tr : Transport) (h : Heap) (i : Nat) (vtag : Option String) :
    Except Err Heap :=
  match h.objs i with
  | none => .error .invalidRef
  | some o =>
    let result := tr.get o vtag
    let h1 := h.addCall (.get o.client o.bucket.name o.key vtag)
    if result.truthy && result ≠ .emptyPair then
      populate h1 i result
    else
      .ok (clear h1 i)

/-- `RiakObject.get_sibling`: a resolved entry is returned as is; a
version tag entry is resolved by constructing a record for the same
client/bucket/key, reloading it by that tag, writing the resolved record
back into the shared sibling list in place, and pointing the resolved
record's own `siblings` attribute at that same list.  Returns the heap
together with the id of the sibling record. -/
def get_sibling (tr : Transport) (h : Heap) (i : Nat) (idx : Nat) :
    Except Err (Heap × Nat) :=
  match h.objs i with
  | none => .error .invalidRef
  | some o =>
    match ((h.lists o.siblings).getD []).get? idx with
    | none => .error .indexError
    | some (.ref oid) => .ok (h, oid)
    | some (.vtag t) => do
      let hn ← init o.client o.bucket o.key h
      let h2 ← reload tr hn.1 hn.2 (some t)
      let h3 := h2.setList o.siblings
        (((h2.lists o.siblings).getD []).set idx (.ref hn.2))
      match h3.objs hn.2 with
      | some no => .ok (h3.setObj hn.2 { no with siblings := o.siblings }, hn.2)
      | none => .error .invalidRef

/-! ### Concrete fixtures used by witnesses and counterexamples -/

/-- A bucket with no registered codecs. -/
def bkt0 : Bucket :=
  { name := "b", get_encoder := fun _ => none, get_decoder := fun _ => none }

/-- A sample registered encoder. -/
def encX : Val → Bytes
  | .str s => "E" ++ s
  | .obj n => "O" ++ toString n

/-- A sample registered decoder. -/
def decX : Bytes → Val := fun b => .str b

/-- A bucket with codecs registered for the default content type. -/
def bkt1 : Bucket :=
  { name := "b1"
    get_encoder := fun ct => if ct = "application/json" then some encX else none
    get_decoder := fun ct => if ct = "application/json" then some decX else none }

/-- The empty heap. -/
def heap0 : Heap :=
  { objs := fun _ => none, nextObj := 0, lists := fun _ => none, nextList := 0,
    trace := [] }

/-- A transport whose operations all answer `None`. -/
def trNone : Transport :=
  { put_new := fun _ => .noneR, put := fun _ => .noneR, get := fun _ _ => .noneR }

/-! ### C9 — codec dispatch asymmetry -/

/-- C9: `encode` uses the registered encoder when one exists, falls back to
the default byte encoding for a textual value when none is registered, and
fails with the missing-codec error only for a non-textual value with no
registered encoder; `decode` uses the registered decoder when one exists
and otherwise always fails with the missing-codec error, with no fallback,
for every input byte string. -/
theorem C9_codec_dispatch :
    (∀ (o : RObject) (v : Val) (enc : Val → Bytes),
       o.bucket.get_encoder o.content_type = some enc →
       _serialize o v = .ok (enc v)) ∧
    (∀ (o : RObject) (s : String),
       o.bucket.get_encoder o.content_type = none →
       _serialize o (.str s) = .ok (strEncode s)) ∧
    (∀ (o : RObject) (n : Nat),
       o.bucket.get_encoder o.content_type = none →
       _serialize o (.obj n) = .error .missingEncoder) ∧
    (∀ (o : RObject) (b : Bytes) (dec : Bytes → Val),
       o.bucket.get_decoder o.content_type = some dec →
       _deserialize o b = .ok (dec b)) ∧
    (∀ (o : RObject) (b : Bytes),
       o.bucket.get_decoder o.content_type = none →
       _deserialize o b = .error .missingDecoder) := by
  refine ⟨?_, ?_, ?_, ?_, ?_⟩ <;> intros <;> simp [_serialize, _deserialize, *]

/-- Witness for C9 at concrete codec registries. -/
theorem C9_codec_dispatch_witness :
    _serialize (initObj 1 bkt1 (some "k") 0) (.str "hi") = .ok (encX (.str "hi")) ∧
    _serialize (initObj 0 bkt0 (some "k") 0) (.str "hi") = .ok (strEncode "hi") ∧
    _serialize (initObj 0 bkt0 (some "k") 0) (.obj 3) = .error .missingEncoder ∧
    _deserialize (initObj 1 bkt1 (some "k") 0) "bs" = .ok (decX "bs") ∧
    _deserialize (initObj 0 bkt0 (some "k") 0) "bs" = .error .missingDecoder :=
  ⟨C9_codec_dispatch.1 _ _ encX rfl,
   C9_codec_dispatch.2.1 _ _ rfl,
   C9_codec_dispatch.2.2.1 _ _ rfl,
   C9_codec_dispatch.2.2.2.1 _ _ decX rfl,
   C9_codec_dispatch.2.2.2.2 _ _ rfl⟩

/-! ### C10 — constructor defaults -/

/-- C10: every newly constructed record has `content_type` exactly
`application/json` with `charset` and `content_encoding` unset, and codec
dispatch for the fresh record is therefore keyed by the JSON content
type. -/
theorem C10_init_defaults (client : Nat) (bucket : Bucket) (key : Option String)
    (h : Heap) (hk : key ≠ some "") :
    ∃ h2 oid o, init client bucket key h = .ok (h2, oid) ∧
      h2.objs oid = some o ∧
      o.content_type = "application/json" ∧ o.charset = none ∧
      o.content_encoding = none ∧
      (∀ (enc : Val → Bytes) (v : Val),
        bucket.get_encoder "application/json" = some enc →
        _serialize o v = .ok (enc v)) ∧
      (∀ (dec : Bytes → Val) (b : Bytes),
        bucket.get_decoder "application/json" = some dec →
        _deserialize o b = .ok (dec b)) := by
  refine ⟨((h.allocList []).1.allocObj (initObj client bucket key h.nextList)).1,
    h.nextObj, initObj client bucket key h.nextList, ?_, ?_, rfl, rfl, rfl,
    ?_, ?_⟩
  · simp [init, hk, Heap.allocList, Heap.allocObj]
  · simp [Heap.allocList, Heap.allocObj, upd_self]
  · intro enc v henc
    simp [_serialize, initObj, henc]
  · intro dec b hdec
    simp [_deserialize, initObj, hdec]

/-- Witness for C10 at a concrete construction. -/
theorem C10_init_defaults_witness :
    ∃ h2 oid o, init 1 bkt1 (some "k") heap0 = .ok (h2, oid) ∧
      h2.objs oid = some o ∧
      o.content_type = "application/json" ∧ o.charset = none ∧
      o.content_encoding = none ∧
      (∀ (enc : Val → Bytes) (v : Val),
        bkt1.get_encoder "application/json" = some enc →
        _serialize o v = .ok (enc v)) ∧
      (∀ (dec : Bytes → Val) (b : Bytes),
        bkt1.get_decoder "application/json" = some dec →
        _deserialize o b = .ok (dec b)) :=
  C10_init_defaults 1 bkt1 (some "k") heap0 (by decide)

/-! ### C4 — equality and hashing by the (key, bucket, vclock) triple -/

/-- C4: records are equal exactly when their `(key, bucket, vclock)`
triples are equal (the built-in tuple hash being modelled injectively),
the hash is derived from that same triple, identical triples give equal
and hash-equal records regardless of every other field, differing vclocks
break equality, and comparison against a non-record is never equal and
always not-equal. -/
theorem C4_equality_triple :
    (∀ a b : RObject, objEq a (.record b) ↔
       a.key = b.key ∧ a.bucket = b.bucket ∧ a.vclock = b.vclock) ∧
    (∀ a b : RObject, a.key = b.key → a.bucket = b.bucket → a.vclock = b.vclock →
       objEq a (.record b) ∧ objHash a = objHash b) ∧
    (∀ a b : RObject, a.vclock ≠ b.vclock → ¬ objEq a (.record b)) ∧
    (∀ (a : RObject) (n : Nat), ¬ objEq a (.nonRecord n) ∧ objNe a (.nonRecord n)) := by
  refine ⟨?_, ?_, ?_, ?_⟩
  · intro a b
    simp [objEq, objHash, Prod.ext_iff]
  · intro a b h1 h2 h3
    simp [objEq, objHash, Prod.ext_iff, h1, h2, h3]
  · intro a b hv heq
    exact hv (congrArg (fun t => t.2.2) heq)
  · intro a n
    exact ⟨fun hf => hf, trivial⟩

/-- A record with vclock `v1`. -/
def objV1 : RObject := { initObj 0 bkt0 (some "k") 0 with vclock := some "v1" }

/-- A record agreeing with `objV1` on the triple but not on `indexes`. -/
def objV1x : RObject := { objV1 with indexes := [("a_bin", IVal.str "x")] }

/-- A record differing from `objV1` only in its vclock. -/
def objV2 : RObject := { initObj 0 bkt0 (some "k") 0 with vclock := some "v2" }

/-- Witness for C4: records agreeing on the triple but differing in other
fields are equal; changing only the vclock breaks equality. -/
theorem C4_equality_triple_witness :
    (objEq objV1x (.record objV1) ∧ objHash objV1x = objHash objV1) ∧
    ¬ objEq objV1 (.record objV2) ∧
    ¬ objEq (initObj 0 bkt0 (some "k") 0) (.nonRecord 5) :=
  ⟨C4_equality_triple.2.1 _ _ rfl rfl rfl,
   C4_equality_triple.2.2.1 _ _ (by simp [objV1, objV2, initObj]),
   (C4_equality_triple.2.2.2 _ 5).1⟩

/-! ### C5 — remove_index case analysis -/

/-- A record with two index pairs on the same field. -/
def oC5 : RObject :=
  { initObj 0 bkt0 (some "k") 0 with
    indexes := [("foo_int", IVal.int 0), ("foo_int", IVal.int 5)] }

/-- C5 counterexample: the four cases dispatch on Python *truthiness*, not
on argument presence.  Passing the present but falsy value `0` together
with its field removes every pair with that field (here also
`("foo_int", 5)`), instead of removing exactly the pair `("foo_int", 0)`;
and passing the falsy value `0` without a field clears the whole index set
instead of failing with the ambiguous-removal error. -/
theorem C5_remove_index_cex :
    remove_index oC5 (some "foo_int") (some (.int 0)) =
      .ok { oC5 with indexes := [] } ∧
    remove_index oC5 none (some (.int 0)) = .ok { oC5 with indexes := [] } := by
  constructor <;> rfl

/-- C5 (amended): `remove_index` implements four cases keyed on the
truthiness of its arguments: both falsy clears the whole index set; a
truthy field with a falsy value removes every pair with that field; a
truthy field with a truthy value removes exactly that pair, failing
(`KeyError`) if absent; a falsy field with a truthy value fails with the
ambiguous-removal error (and, the result being an exception, leaves the
record untouched). -/
theorem C5_remove_index_cases :
    (∀ (o : RObject) (f : Option String) (v : Option IVal),
       truthyOptStr f = false → truthyOptIVal v = false →
       remove_index o f v = .ok { o with indexes := [] }) ∧
    (∀ (o : RObject) (f : String) (v : Option IVal),
       truthyOptStr (some f) = true → truthyOptIVal v = false →
       ∃ o2, remove_index o (some f) v = .ok o2 ∧
         ∀ p, p ∈ o2.indexes ↔ p ∈ o.indexes ∧ p.1 ≠ f) ∧
    (∀ (o : RObject) (f : String) (v : IVal),
       truthyOptStr (some f) = true → truthyOptIVal (some v) = true →
       ((f, v) ∈ o.indexes →
          ∃ o2, remove_index o (some f) (some v) = .ok o2 ∧
            ∀ p, p ∈ o2.indexes ↔ p ∈ o.indexes ∧ p ≠ (f, v)) ∧
       ((f, v) ∉ o.indexes →
          remove_index o (some f) (some v) = .error .keyError)) ∧
    (∀ (o : RObject) (v : IVal),
       truthyOptIVal (some v) = true →
       remove_index o none (some v) = .error .ambiguousIndexRemoval) := by
  refine ⟨?_, ?_, ?_, ?_⟩
  · intro o f v hf hv
    simp [remove_index, hf, hv]
  · intro o f v hf hv
    refine ⟨{ o with indexes := o.indexes.filter (fun x => !decide (some x.1 = some f)) },
      ?_, ?_⟩
    · simp [remove_index, hf, hv]
    · intro p
      simp [List.mem_filter]
  · intro o f v hf hv
    constructor
    · intro hmem
      refine ⟨{ o with indexes := o.indexes.filter (fun x => !decide (x = (f, v))) },
        ?_, ?_⟩
      · simp [remove_index, hf, hv, hmem]
      · intro p
        simp [List.mem_filter]
    · intro hmem
      simp [remove_index, hf, hv, hmem]
  · intro o v hv
    simp [remove_index, truthyOptStr, hv]

/-- Witness for C5 (amended) at concrete inputs. -/
theorem C5_remove_index_cases_witness :
    remove_index oC5 none none = .ok { oC5 with indexes := [] } ∧
    remove_index oC5 none (some (.str "x")) = .error .ambiguousIndexRemoval ∧
    remove_index oC5 (some "foo_int") (some (.int 7)) = .error .keyError :=
  ⟨C5_remove_index_cases.1 oC5 none none rfl rfl,
   C5_remove_index_cases.2.2.2 oC5 (.str "x") rfl,
   (C5_remove_index_cases.2.2.1 oC5 "foo_int" (.int 7) rfl rfl).2 (by decide)⟩

/-! ### C2 — the value cell invariant and freshness -/

/-- C2: the value cell holds at most one live representation.  After
construction both sides are absent; each setter immediately invalidates
the opposite side; each getter preserves the invariant (discarding the
side it converts away from); reading `encoded_data` right after setting
`data` returns exactly the fresh serialization of the new value (dropping
the decoded copy on success), and reading `data` right after setting
`encoded_data` returns exactly the fresh deserialization (never a stale
previously decoded value). -/
theorem C2_value_cell :
    (∀ (client : Nat) (bucket : Bucket) (key : Option String)
       (h h2 : Heap) (oid : Nat) (o : RObject),
       init client bucket key h = .ok (h2, oid) → h2.objs oid = some o →
       o._data = none ∧ o._encoded_data = none) ∧
    (∀ (o : RObject) (v : Option Val), cellInv (_set_data o v)) ∧
    (∀ (o : RObject) (b : Option Bytes), cellInv (_set_encoded_data o b)) ∧
    (∀ (o : RObject) (r : Option Val × RObject),
       cellInv o → _get_data o = .ok r → cellInv r.2) ∧
    (∀ (o : RObject) (r : Option Bytes × RObject),
       cellInv o → _get_encoded_data o = .ok r → cellInv r.2) ∧
    (∀ (o : RObject) (v : Val),
       _get_encoded_data (_set_data o (some v)) =
         (_serialize o v).map (fun b =>
           (some b, { o with _data := none, _encoded_data := some b }))) ∧
    (∀ (o : RObject) (b : Bytes),
       _get_data (_set_encoded_data o (some b)) =
         (_deserialize o b).map (fun v =>
           (some v, { o with _encoded_data := none, _data := some v }))) := by
  refine ⟨?_, ?_, ?_, ?_, ?_, ?_, ?_⟩
  · intro client bucket key h h2 oid o hinit hobj
    by_cases hk : key = some ""
    · simp [init, hk] at hinit
    · simp [init, hk, Heap.allocList, Heap.allocObj] at hinit
      obtain ⟨hh2, hoid⟩ := hinit
      subst hh2
      subst hoid
      simp [upd_self, initObj] at hobj
      obtain rfl := hobj
      exact ⟨rfl, rfl⟩
  · intro o v
    exact Or.inr rfl
  · intro o b
    exact Or.inl rfl
  · intro o r hinv hget
    cases hd : o._data with
    | some v =>
      cases he : o._encoded_data with
      | some b => cases hinv <;> simp_all
      | none =>
        simp [_get_data, hd, he] at hget
        obtain rfl := hget
        exact hinv
    | none =>
      cases he : o._encoded_data with
      | none =>
        simp [_get_data, hd, he] at hget
        obtain rfl := hget
        exact hinv
      | some b =>
        simp only [_get_data, hd, he] at hget
        cases hs : _deserialize o b with
        | ok v =>
          simp [hs] at hget
          obtain rfl := hget
          exact Or.inr rfl
        | error e => simp [hs] at hget
  · intro o r hinv hget
    cases hd : o._data with
    | none =>
      cases he : o._encoded_data with
      | none =>
        simp [_get_encoded_data, hd, he] at hget
        obtain rfl := hget
        exact hinv
      | some b =>
        simp [_get_encoded_data, hd, he] at hget
        obtain rfl := hget
        exact hinv
    | some v =>
      cases he : o._encoded_data with
      | some b => cases hinv <;> simp_all
      | none =>
        simp only [_get_encoded_data, hd, he] at hget
        cases hs : _serialize o v with
        | ok b =>
          simp [hs] at hget
          obtain rfl := hget
          exact Or.inl rfl
        | error e => simp [hs] at hget
  · intro o v
    cases he : o.bucket.get_encoder o.content_type with
    | some enc =>
      simp [_get_encoded_data, _set_data, _serialize, he, Except.map]
    | none =>
      cases v <;> simp [_get_encoded_data, _set_data, _serialize, he, Except.map]
  · intro o b
    cases hdec : o.bucket.get_decoder o.content_type with
    | some dec =>
      simp [_get_data, _set_encoded_data, _deserialize, hdec, Except.map]
    | none =>
      simp [_get_data, _set_encoded_data, _deserialize, hdec, Except.map]

/-- Witness for C2 at a concrete record and codec registry: setting data
then reading `encoded_data` yields the fresh encoding; overwriting
`encoded_data` and reading `data` yields its decoding, not the stale
value. -/
theorem C2_value_cell_witness :
    cellInv (_set_data (initObj 1 bkt1 (some "k") 0) (some (.str "x"))) ∧
    _get_encoded_data (_set_data (initObj 1 bkt1 (some "k") 0) (some (.str "x"))) =
      .ok (some "Ex", _set_encoded_data (initObj 1 bkt1 (some "k") 0) (some "Ex")) ∧
    _get_data (_set_encoded_data (initObj 1 bkt1 (some "k") 0) (some "y")) =
      .ok (some (.str "y"), _set_data (initObj 1 bkt1 (some "k") 0) (some (.str "y"))) ∧
    cellInv (_set_data (initObj 1 bkt1 (some "k") 0) (some (.str "y"))) := by
  refine ⟨C2_value_cell.2.1 _ _, ?_, ?_, ?_⟩
  · have hx := C2_value_cell.2.2.2.2.2.1 (initObj 1 bkt1 (some "k") 0) (.str "x")
    rw [hx]
    rfl
  · have hy := C2_value_cell.2.2.2.2.2.2 (initObj 1 bkt1 (some "k") 0) "y"
    rw [hy]
    rfl
  · exact C2_value_cell.2.2.2.1
      (_set_encoded_data (initObj 1 bkt1 (some "k") 0) (some "y"))
      (some (.str "y"), _set_data (initObj 1 bkt1 (some "k") 0) (some (.str "y")))
      (Or.inl rfl) rfl

/-! ### C1 — the store() conflict guard -/

/-- `_populate` can never raise the unresolved-conflict error: its only
errors are the unrecognized-result one (and the model's dangling-ref
artifact). -/
theorem populate_ne_conflict (h : Heap) (j : Nat) (r : TResult) :
    populate h j r ≠ .error .unresolvedConflictStore := by
  cases r with
  | noneR => simp [populate]
  | emptyPair => simp [populate]
  | vtags ts => simp [populate]
  | obj rid =>
    by_cases hr : rid = j
    · simp [populate, hr]
    · cases hro : (clear h j).objs rid <;> simp [populate, hr, hro]

/-- C1 (amended): the guard of `store()` tests Python truthiness, not mere
presence.  When the shared sibling list is non-empty and data, encoded
data and vclock are all *falsy*, `store()` raises the unresolved-conflict
error for every transport — so no transport call is made and, the result
being an exception, the record is left unchanged.  Conversely, when the
sibling list is empty or any of the three is *truthy*, the error is never
raised.  (The claim's reading "set", i.e. not `None`, is refuted by the
counterexample: a record whose data is set to the falsy `""` still
raises.) -/
theorem C1_store_conflict_guard (h : Heap) (i : Nat) (o : RObject)
    (sl : List SibEntry) (ho : h.objs i = some o)
    (hl : h.lists o.siblings = some sl) :
    (sl ≠ [] → truthyOptVal o._data = false → truthyOptStr o._encoded_data = false →
       truthyOptStr o.vclock = false →
       ∀ tr, store tr h i = .error .unresolvedConflictStore) ∧
    ((sl = [] ∨ truthyOptVal o._data = true ∨ truthyOptStr o._encoded_data = true ∨
        truthyOptStr o.vclock = true) →
       ∀ tr, store tr h i ≠ .error .unresolvedConflictStore) := by
  constructor
  · intro hne hd he hv tr
    cases sl with
    | nil => exact absurd rfl hne
    | cons a l => simp [store, ho, truthySiblings, hl, hd, he, hv]
  · intro hdisj tr
    have hguard : (truthySiblings h o && !truthyOptVal o._data &&
        !truthyOptStr o._encoded_data && !truthyOptStr o.vclock) = false := by
      rcases hdisj with h1 | h1 | h1 | h1 <;> simp [truthySiblings, hl, h1]
    simp only [store, ho, hguard, Bool.false_eq_true, if_false]
    by_cases hk : o.key = none
    · simp only [hk, if_true]
      exact populate_ne_conflict _ _ _
    · simp only [hk, if_false]
      cases hput : tr.put o with
      | noneR => simp
      | emptyPair => simp
      | obj rid => exact populate_ne_conflict _ _ _
      | vtags ts => exact populate_ne_conflict _ _ _

/-- A conflicted record with nothing set: siblings only. -/
def hConf : Heap :=
  { objs := fun j => if j = 0 then some (initObj 0 bkt0 (some "k") 0) else none
    nextObj := 1
    lists := fun j => if j = 0 then some [SibEntry.vtag "t"] else none
    nextList := 1
    trace := [] }

/-- A conflicted record that also carries truthy decoded data. -/
def oD : RObject := { initObj 0 bkt0 (some "k") 0 with _data := some (Val.str "d") }

/-- Heap holding `oD` with a non-empty sibling list. -/
def hD : Heap :=
  { objs := fun j => if j = 0 then some oD else none
    nextObj := 1
    lists := fun j => if j = 0 then some [SibEntry.vtag "t"] else none
    nextList := 1
    trace := [] }

/-- Witness for C1 (amended): with only siblings set, `store` raises the
conflict error; with truthy data present it does not. -/
theorem C1_store_conflict_guard_witness :
    store trNone hConf 0 = .error .unresolvedConflictStore ∧
    store trNone hD 0 ≠ .error .unresolvedConflictStore :=
  ⟨(C1_store_conflict_guard hConf 0 (initObj 0 bkt0 (some "k") 0) [.vtag "t"]
      rfl rfl).1 (by decide) rfl rfl rfl trNone,
   (C1_store_conflict_guard hD 0 oD [.vtag "t"] rfl rfl).2 (Or.inr (Or.inl rfl))
      trNone⟩

/-- A conflicted record whose data is *set* but falsy (the empty string). -/
def oC1 : RObject := { initObj 0 bkt0 (some "k") 0 with _data := some (Val.str "") }

/-- Heap holding `oC1` with a non-empty sibling list. -/
def hC1 : Heap :=
  { objs := fun j => if j = 0 then some oC1 else none
    nextObj := 1
    lists := fun j => if j = 0 then some [SibEntry.vtag "t"] else none
    nextList := 1
    trace := [] }

/-- C1 counterexample: this record has non-empty siblings, *has* decoded
data set (to the falsy `""`), no encoded data and no vclock — by the claim
`store()` should not raise the unresolved-conflict error, yet it does,
because the guard tests `not self._data` (truthiness), not `is None`. -/
theorem C1_store_conflict_guard_cex :
    oC1._data = some (Val.str "") ∧
    hC1.lists oC1.siblings = some [SibEntry.vtag "t"] ∧
    store trNone hC1 0 = .error .unresolvedConflictStore :=
  ⟨rfl, rfl, rfl⟩

/-! ### C8 — clear() resets exactly the volatile fields -/

/-- C8: `clear()` always succeeds (it is a total function of the heap),
resets the value cell, links, siblings and the exists flag, and leaves
key, bucket, client, vclock, indexes, usermeta, content type, charset and
content encoding unchanged. -/
theorem C8_clear (h : Heap) (i : Nat) (o : RObject) (ho : h.objs i = some o) :
    ∃ o2, (clear h i).objs i = some o2 ∧
      o2._data = none ∧ o2._encoded_data = none ∧ o2.links = [] ∧
      o2.«exists» = false ∧ (clear h i).lists o2.siblings = some [] ∧
      o2.key = o.key ∧ o2.bucket = o.bucket ∧ o2.client = o.client ∧
      o2.vclock = o.vclock ∧ o2.indexes = o.indexes ∧ o2.usermeta = o.usermeta ∧
      o2.content_type = o.content_type ∧ o2.charset = o.charset ∧
      o2.content_encoding = o.content_encoding := by
  refine ⟨{ o with headers := some [], links := [], _data := none, _encoded_data := none, «exists» := false, siblings := h.nextList },
    ?_, rfl, rfl, rfl, rfl, ?_, rfl, rfl, rfl, rfl, rfl, rfl, rfl, rfl, rfl⟩
  · simp [clear, ho, Heap.allocList, Heap.setObj, upd_self]
  · simp [clear, ho, Heap.allocList, Heap.setObj, upd_self]

/-- A fully populated record (every preserved field non-trivial). -/
def oFull : RObject :=
  { client := 3
    bucket := bkt1
    key := some "kk"
    _data := some (Val.str "payload")
    _encoded_data := none
    vclock := some "vc"
    charset := some "utf-8"
    content_type := "text/plain"
    content_encoding := some "gzip"
    usermeta := [("m", "1")]
    indexes := [("f_bin", IVal.str "x")]
    links := [("b", some "k2", some "tag")]
    siblings := 0
    «exists» := true
    headers := none }

/-- Heap holding `oFull` with a non-empty sibling list. -/
def hFull : Heap :=
  { objs := fun j => if j = 0 then some oFull else none
    nextObj := 1
    lists := fun j => if j = 0 then some [SibEntry.vtag "a", SibEntry.vtag "b"] else none
    nextList := 1
    trace := [] }

/-- Witness for C8 on a fully populated record. -/
theorem C8_clear_witness :
    ∃ o2, (clear hFull 0).objs 0 = some o2 ∧
      o2._data = none ∧ o2._encoded_data = none ∧ o2.links = [] ∧
      o2.«exists» = false ∧ (clear hFull 0).lists o2.siblings = some [] ∧
      o2.key = oFull.key ∧ o2.bucket = oFull.bucket ∧ o2.client = oFull.client ∧
      o2.vclock = oFull.vclock ∧ o2.indexes = oFull.indexes ∧
      o2.usermeta = oFull.usermeta ∧ o2.content_type = oFull.content_type ∧
      o2.charset = oFull.charset ∧ o2.content_encoding = oFull.content_encoding :=
  C8_clear hFull 0 oFull rfl

/-! ### C7 — reload() on not-found clears -/

/-- C7: `reload()` on the `None` ("not found") transport result clears the
record — no error is raised, `exists` becomes false, links and the (fresh)
sibling list become empty; on a populated-record result, and on a
non-empty version-tag list, the result is applied via `_populate`. -/
theorem C7_reload (tr : Transport) (h : Heap) (i : Nat) (o : RObject)
    (ho : h.objs i = some o) :
    (tr.get o none = .noneR →
       ∃ o2, reload tr h i none =
           .ok (clear (h.addCall (.get o.client o.bucket.name o.key none)) i) ∧
         (clear (h.addCall (.get o.client o.bucket.name o.key none)) i).objs i =
           some o2 ∧
         o2.«exists» = false ∧ o2.links = [] ∧
         (clear (h.addCall (.get o.client o.bucket.name o.key none)) i).lists
           o2.siblings = some []) ∧
    (∀ rid, tr.get o none = .obj rid →
       reload tr h i none =
         populate (h.addCall (.get o.client o.bucket.name o.key none)) i (.obj rid)) ∧
    (∀ ts, ts ≠ [] → tr.get o none = .vtags ts →
       reload tr h i none =
         populate (h.addCall (.get o.client o.bucket.name o.key none)) i
           (.vtags ts)) := by
  refine ⟨?_, ?_, ?_⟩
  · intro hres
    refine ⟨{ o with headers := some [], links := [], _data := none, _encoded_data := none, «exists» := false, siblings := h.nextList },
      ?_, ?_, rfl, rfl, ?_⟩
    · simp [reload, ho, hres, TResult.truthy]
    · simp [clear, Heap.addCall, ho, Heap.allocList, Heap.setObj, upd_self]
    · simp [clear, Heap.addCall, ho, Heap.allocList, Heap.setObj, upd_self]
  · intro rid hres
    simp [reload, ho, hres, TResult.truthy]
  · intro ts hts hres
    cases ts with
    | nil => exact absurd rfl hts
    | cons a l => simp [reload, ho, hres, TResult.truthy]

/-- A transport whose fetch yields the record stored at heap id 0. -/
def trObj0 : Transport :=
  { put_new := fun _ => .noneR, put := fun _ => .noneR, get := fun _ _ => .obj 0 }

/-- Witness for C7: a not-found reload clears; a populated result goes
through `_populate`. -/
theorem C7_reload_witness :
    (∃ o2, reload trNone hFull 0 none =
        .ok (clear (hFull.addCall
          (.get oFull.client oFull.bucket.name oFull.key none)) 0) ∧
      (clear (hFull.addCall
          (.get oFull.client oFull.bucket.name oFull.key none)) 0).objs 0 =
        some o2 ∧
      o2.«exists» = false ∧ o2.links = [] ∧
      (clear (hFull.addCall
          (.get oFull.client oFull.bucket.name oFull.key none)) 0).lists
        o2.siblings = some []) ∧
    reload trObj0 hFull 0 none =
      populate (hFull.addCall
        (.get oFull.client oFull.bucket.name oFull.key none)) 0 (.obj 0) :=
  ⟨(C7_reload trNone hFull 0 oFull rfl).1 rfl,
   (C7_reload trObj0 hFull 0 oFull rfl).2.1 0 rfl⟩

/-! ### C6 — store() result application and _populate shapes -/

/-- `clear` leaves every other heap object unchanged. -/
theorem clear_objs_other (h : Heap) (i j : Nat) (hne : j ≠ i) :
    (clear h i).objs j = h.objs j := by
  cases ho : h.objs i <;>
    simp [clear, ho, Heap.allocList, Heap.setObj, upd_other _ _ _ _ hne]

/-- An inert record with no key (server-assigned-key path) at heap id 0. -/
def oC6 : RObject := initObj 0 bkt0 none 0

/-- Heap holding `oC6` with an empty sibling list. -/
def hC6 : Heap :=
  { objs := fun j => if j = 0 then some oC6 else none
    nextObj := 1
    lists := fun j => if j = 0 then some [] else none
    nextList := 1
    trace := [] }

/-- A transport whose store operations answer the `('', [])` no-op
sentinel. -/
def trPair : Transport :=
  { put_new := fun _ => .emptyPair, put := fun _ => .emptyPair,
    get := fun _ _ => .noneR }

/-- C6 counterexample: on the server-assigned-key path the code passes the
result to `_populate` *unconditionally* — the recognized `('', [])` no-op
sentinel is not skipped there, so `store()` raises the
unrecognized-result error instead of doing nothing. -/
theorem C6_store_populate_cex :
    oC6.key = none ∧ trPair.put_new oC6 = .emptyPair ∧
    store trPair hC6 0 = .error .unrecognizedPopulateResult :=
  ⟨rfl, rfl, rfl⟩

/-- C6 (amended): on the keyed-update path `store()` skips `_populate`
exactly for the `None` and `('', [])` sentinel results and applies every
other result via `_populate`; on the server-assigned-key path it passes
the result to `_populate` unconditionally (harmless for `None`, which
`_populate` ignores, but the tuple sentinel raises there).  `_populate`
itself no-ops on `None` and on the record itself, wholesale-replaces the
record's field set from another populated record, and fails with the
unrecognized-result error on every other shape. -/
theorem C6_store_populate (tr : Transport) (h : Heap) (i : Nat) (o : RObject)
    (ho : h.objs i = some o)
    (hguard : (truthySiblings h o && !truthyOptVal o._data &&
        !truthyOptStr o._encoded_data && !truthyOptStr o.vclock) = false) :
    (o.key ≠ none → tr.put o = .noneR →
       store tr h i = .ok (h.addCall (.put o.bucket.name o.key))) ∧
    (o.key ≠ none → tr.put o = .emptyPair →
       store tr h i = .ok (h.addCall (.put o.bucket.name o.key))) ∧
    (∀ r, o.key ≠ none → tr.put o = r → r ≠ .noneR → r ≠ .emptyPair →
       store tr h i = populate (h.addCall (.put o.bucket.name o.key)) i r) ∧
    (o.key = none →
       store tr h i = populate (h.addCall (.putNew o.bucket.name)) i (tr.put_new o)) ∧
    (populate h i .noneR = .ok h) ∧
    (populate h i (.obj i) = .ok h) ∧
    (∀ rid ro, rid ≠ i → h.objs rid = some ro →
       populate h i (.obj rid) = .ok ((clear h i).setObj i ro) ∧
       ((clear h i).setObj i ro).objs i = some ro) ∧
    (populate h i .emptyPair = .error .unrecognizedPopulateResult) ∧
    (∀ ts, populate h i (.vtags ts) = .error .unrecognizedPopulateResult) := by
  refine ⟨?_, ?_, ?_, ?_, ?_, ?_, ?_, ?_, ?_⟩
  · intro hk hput
    simp [store, ho, hguard, hk, hput]
  · intro hk hput
    simp [store, ho, hguard, hk, hput]
  · intro r hk hput hr1 hr2
    cases r with
    | noneR => exact absurd rfl hr1
    | emptyPair => exact absurd rfl hr2
    | obj rid => simp [store, ho, hguard, hk, hput]
    | vtags ts => simp [store, ho, hguard, hk, hput]
  · intro hk
    simp [store, ho, hguard, hk]
  · simp [populate]
  · simp [populate]
  · intro rid ro hne hro
    have hco : (clear h i).objs rid = some ro := by
      rw [clear_objs_other h i rid hne]
      exact hro
    exact ⟨by simp [populate, hne, hco], by simp [Heap.setObj, upd_self]⟩
  · simp [populate]
  · intro ts
    simp [populate]

/-- A two-object heap: the keyless record at id 0 and a populated record
at id 1. -/
def h2o : Heap :=
  { objs := fun j => if j = 0 then some oC6 else if j = 1 then some oFull else none
    nextObj := 2
    lists := fun j => if j = 0 then some [] else none
    nextList := 1
    trace := [] }

/-- Witness for C6 (amended): the keyed sentinel skip, the unconditional
keyless populate, and a wholesale replacement from another record. -/
theorem C6_store_populate_witness :
    store trNone hD 0 = .ok (hD.addCall (.put oD.bucket.name oD.key)) ∧
    store trNone hC6 0 =
      populate (hC6.addCall (.putNew oC6.bucket.name)) 0 (trNone.put_new oC6) ∧
    (populate h2o 0 (.obj 1) = .ok ((clear h2o 0).setObj 0 oFull) ∧
     ((clear h2o 0).setObj 0 oFull).objs 0 = some oFull) :=
  ⟨(C6_store_populate trNone hD 0 oD rfl rfl).1 (by simp [oD, initObj]) rfl,
   (C6_store_populate trNone hC6 0 oC6 rfl rfl).2.2.2.1 rfl,
   (C6_store_populate trNone h2o 0 oC6 rfl rfl).2.2.2.2.2.2.1 1 oFull
     (by decide) rfl⟩

/-! ### C3 — lazy sibling resolution through the shared list -/

/-- A successful indexed lookup is in range. -/
theorem listGet_lt {α : Type} {l : List α} {i : Nat} {a : α}
    (h : l.get? i = some a) : i < l.length := by
  induction l generalizing i with
  | nil => simp at h
  | cons x xs ih =>
    cases i with
    | zero => simp
    | succ n => simpa using ih (by simpa using h)

/-- Reading back an in-range in-place update. -/
theorem listGetSet_self {α : Type} (l : List α) (i : Nat) (a : α)
    (hlt : i < l.length) : (l.set i a).get? i = some a := by
  induction l generalizing i with
  | nil => simp at hlt
  | cons x xs ih =>
    cases i with
    | zero => rfl
    | succ n => simpa using ih n (by simpa using hlt)

/-- Bind on a successful `Except` computation reduces. -/
theorem exceptBind_ok {ε α β : Type} (a : α) (f : α → Except ε β) :
    (Except.ok (ε := ε) a >>= f) = f a := rfl

/-- C3: `get_sibling(i)` on an already resolved entry returns it with the
heap (and the transport journal) untouched.  On a version-tag entry it
constructs a record for the same client/bucket/key, performs exactly one
transport fetch by that tag, stores the resolved record into the shared
sibling list in place (so the resolution is visible to every holder of
that list), points the resolved record's own `siblings` at the very same
list, leaves the original record untouched, and a second call then
returns the same resolved record id from the cache without further
transport traffic. -/
theorem C3_get_sibling (tr : Transport) (h : Heap) (i : Nat) (o : RObject)
    (sl : List SibEntry) (idx : Nat)
    (ho : h.objs i = some o) (hi : i < h.nextObj)
    (hl : h.lists o.siblings = some sl) (hsid : o.siblings < h.nextList) :
    (∀ oid, sl.get? idx = some (.ref oid) →
       get_sibling tr h i idx = .ok (h, oid)) ∧
    (∀ t rid ro, sl.get? idx = some (.vtag t) → o.key ≠ some "" →
       tr.get (initObj o.client o.bucket o.key h.nextList) (some t) = .obj rid →
       rid < h.nextObj → h.objs rid = some ro →
       ∃ h4, get_sibling tr h i idx = .ok (h4, h.nextObj) ∧
         h4.objs h.nextObj = some { ro with siblings := o.siblings } ∧
         h4.lists o.siblings = some (sl.set idx (.ref h.nextObj)) ∧
         h4.trace = h.trace ++ [.get o.client o.bucket.name o.key (some t)] ∧
         h4.objs i = h.objs i ∧
         get_sibling tr h4 i idx = .ok (h4, h.nextObj)) := by
  constructor
  · intro oid hget
    have hget2 : sl[idx]? = some (SibEntry.ref oid) := by simpa using hget
    simp [get_sibling, ho, hl, hget2]
  · intro t rid ro hget hk htr hrid hro
    have hget2 : sl[idx]? = some (SibEntry.vtag t) := by simpa using hget
    have hlt : idx < sl.length := listGet_lt hget
    have hiNe : i ≠ h.nextObj := Nat.ne_of_lt hi
    have hridNe : rid ≠ h.nextObj := Nat.ne_of_lt hrid
    have hs1 : o.siblings ≠ h.nextList := Nat.ne_of_lt hsid
    have hs2 : o.siblings ≠ h.nextList + 1 := by omega
    have hcache : (sl.set idx (SibEntry.ref h.nextObj))[idx]? =
        some (SibEntry.ref h.nextObj) := by
      simpa using listGetSet_self sl idx (SibEntry.ref h.nextObj) hlt
    have htr2 := htr
    simp only [initObj] at htr2
    refine ⟨((((clear (((h.allocList []).1.allocObj (initObj o.client o.bucket o.key h.nextList)).1.addCall (Call.get o.client o.bucket.name o.key (some t))) h.nextObj).setObj h.nextObj ro).setList o.siblings (sl.set idx (SibEntry.ref h.nextObj))).setObj h.nextObj { ro with siblings := o.siblings }),
      ?_, ?_, ?_, ?_, ?_, ?_⟩
    · simp [get_sibling, ho, hl, hget2, init, hk, reload, populate, clear,
        Heap.allocList, Heap.allocObj, Heap.setObj, Heap.setList, Heap.addCall,
        upd, htr2, TResult.truthy, hridNe, hiNe, hs1, hs2, hro, exceptBind_ok,
        initObj]
    · simp [clear, Heap.allocList, Heap.allocObj, Heap.setObj, Heap.setList,
        Heap.addCall, upd]
    · simp [clear, Heap.allocList, Heap.allocObj, Heap.setObj, Heap.setList,
        Heap.addCall, upd, hs1, hs2, hl]
    · simp [clear, Heap.allocList, Heap.allocObj, Heap.setObj, Heap.setList,
        Heap.addCall, upd]
    · simp [clear, Heap.allocList, Heap.allocObj, Heap.setObj, Heap.setList,
        Heap.addCall, upd, hiNe, ho]
    · simp [get_sibling, clear, Heap.allocList, Heap.allocObj, Heap.setObj,
        Heap.setList, Heap.addCall, ho, hl, upd, hiNe, hs1, hs2, hcache]

/-- A transport resolving the version tag `"t"` to the record at heap
id 1. -/
def trC3 : Transport :=
  { put_new := fun _ => .noneR, put := fun _ => .noneR,
    get := fun _ vt => if vt = some "t" then .obj 1 else .noneR }

/-- A heap with a conflicted record at id 0 (sibling list `[vtag "t"]`)
and the record the tag resolves to at id 1. -/
def hC3 : Heap :=
  { objs := fun j => if j = 0 then some (initObj 0 bkt0 (some "k") 0) else if j = 1 then some oFull else none
    nextObj := 2
    lists := fun j => if j = 0 then some [SibEntry.vtag "t"] else none
    nextList := 1
    trace := [] }

/-- Witness for C3: resolving the tagged sibling fetches by the tag,
writes the resolution into the shared list, shares the list with the
resolved record, and a repeated call is served from the cache. -/
theorem C3_get_sibling_witness :
    ∃ h4, get_sibling trC3 hC3 0 0 = .ok (h4, 2) ∧
      h4.objs 2 = some { oFull with siblings := 0 } ∧
      h4.lists 0 = some [SibEntry.ref 2] ∧
      h4.trace = [Call.get 0 "b" (some "k") (some "t")] ∧
      h4.objs 0 = hC3.objs 0 ∧
      get_sibling trC3 h4 0 0 = .ok (h4, 2) :=
  (C3_get_sibling trC3 hC3 0 (initObj 0 bkt0 (some "k") 0) [SibEntry.vtag "t"] 0
    rfl (by decide) rfl (by decide)).2 "t" 1 oFull rfl (by decide) rfl
    (by decide) rfl

end Riak
